import Mathlib

/-!
Shallow embedding of `scripts/nllb_translator.py` (Prezefren NLLB local
translation service).

The script wraps an external pretrained translation model.  All calls into
the external world (filesystem existence check, `AutoTokenizer.from_pretrained`,
`AutoModelForSeq2SeqLM.from_pretrained`, the tokenizer call, `lang_code_to_id`,
`model.generate`, `tokenizer.decode`, tensor/model device moves) are modelled
by an abstract environment `Env`; each such call is additionally recorded in an
event trace, as is every JSON line printed to standard output, so that claims
about call arguments and about exactly what is written can be stated.

JSON values are modelled by `JValue`; a Python dict produced by `json.loads`
(keys unique) and every response dict are association lists `List (String × JValue)`.
Python exceptions raised by external calls are `Except String` values carrying
`str(e)`; the `try`/`except` blocks of the script become the corresponding
`match` branches.
-/

set_option autoImplicit false

/-- A JSON value, as produced by `json.loads`.  In `obj`, keys are unique
(Python dict after parsing). -/
inductive JValue where
  | str (s : String)
  | num (n : Int)
  | bool (b : Bool)
  | null
  | arr (elts : List JValue)
  | obj (fields : List (String × JValue))
deriving Repr

/-- A response dict of the script: string keys, JSON values. -/
abbrev Resp := List (String × JValue)

/-- Python `d[k]` / `d.get(k)` on a parsed dict: the value at key `k`. -/
def getField (fields : List (String × JValue)) (k : String) : Option JValue :=
  (fields.find? (fun p => p.1 == k)).map (fun p => p.2)

/-- Python `k in d`: key membership test. -/
def hasKey (fields : List (String × JValue)) (k : String) : Bool :=
  fields.any (fun p => p.1 == k)

/-- Python `v == s` between a JSON value and a string literal. -/
def JValue.isStr (v : JValue) (s : String) : Bool :=
  match v with
  | .str t => t == s
  | _ => false

/-- The torch dtype chosen in `load_model`. -/
inductive Dtype where
  | float16
  | float32
deriving DecidableEq, Repr

/-- `torch_dtype=torch.float16 if self.device != "cpu" else torch.float32` -/
def pickDtype (device : String) : Dtype :=
  if device ≠ "cpu" then .float16 else .float32

/-- `device_map="auto" if self.device != "cpu" else None` -/
def pickDeviceMap (device : String) : Option String :=
  if device ≠ "cpu" then some "auto" else none

/-- Observable actions of the script: external-library calls with their
arguments, and JSON lines printed to standard output. -/
inductive Event where
  | printJson (r : Resp)
  | loadTokenizerCall (path : String)
  | loadModelCall (path : String) (dtype : Dtype) (device_map : Option String)
  | modelToCall (device : String)
  | tokenizeCall (text : JValue) (padding truncation : Bool) (max_length : Nat)
  | toDeviceCall (device : String)
  | langCodeToIdCall (code : String) (result : Option Nat)
  | generateCall (forced_bos_token_id : Nat) (max_length num_beams : Nat)
      (early_stopping do_sample : Bool)
  | decodeCall (skip_special_tokens : Bool)
deriving Repr

/-- The external world: filesystem and pretrained-model library.  `Tok`,
`Mdl`, `Tensors`, `Output` are the opaque types of tokenizer objects, model
objects, tokenized tensors and generation outputs.  Fallible calls return
`Except String`, the error being Python's `str(e)`. -/
structure Env (Tok Mdl Tensors Output : Type) where
  pathExists : String → Bool
  fromPretrainedTokenizer : String → Except String Tok
  fromPretrainedModel : String → Dtype → Option String → Except String Mdl
  modelTo : Mdl → String → Except String Mdl
  tokenize : Tok → JValue → Bool → Bool → Nat → Except String Tensors
  lang_code_to_id : Tok → String → Option Nat
  toDevice : Tensors → String → Except String Tensors
  generate : Mdl → Tensors → Nat → Nat → Nat → Bool → Bool → Except String Output
  decode : Tok → Output → Bool → Except String String

/-- State of an `NLLBTranslator` instance. -/
structure NLLBTranslator (Tok Mdl : Type) where
  model_path : String
  device : String
  model : Option Mdl
  tokenizer : Option Tok
  loaded : Bool

/-- `NLLBTranslator.__init__(model_path, device)`. -/
def mkTranslator (Tok Mdl : Type) (model_path : String) (device : String) :
    NLLBTranslator Tok Mdl :=
  { model_path := model_path, device := device, model := none,
    tokenizer := none, loaded := false }

/-- `self.lang_codes`: the NLLB language code mapping, in source order. -/
def lang_codes : List (String × String) :=
  [("en", "eng_Latn"),
   ("es", "spa_Latn"),
   ("fr", "fra_Latn"),
   ("de", "deu_Latn"),
   ("it", "ita_Latn"),
   ("pt", "por_Latn"),
   ("ru", "rus_Cyrl"),
   ("ja", "jpn_Jpan"),
   ("ko", "kor_Hang"),
   ("zh", "zho_Hans"),
   ("ar", "arb_Arab"),
   ("hi", "hin_Deva")]

/-- Lookup of a short code in `self.lang_codes` (Python dict indexing,
without default). -/
def lookupLang (s : String) : Option String :=
  (lang_codes.find? (fun p => p.1 == s)).map (fun p => p.2)

/-- `self.lang_codes.get(key, default)` (lines 88–89): Python's `dict.get`
hashes the key first, so an unhashable key — a JSON array or object — raises
`TypeError` (whose `str` is "unhashable type: 'list'" resp. "'dict'");
a hashable key that is not one of the table's string keys (a non-matching
string, a number, a bool, null) returns the default. -/
def langGet (k : JValue) (dflt : String) : Except String String :=
  match k with
  | .str s => .ok ((lookupLang s).getD dflt)
  | .arr _ => .error "unhashable type: 'list'"
  | .obj _ => .error "unhashable type: 'dict'"
  | _ => .ok dflt

/-- The value of `src_code = self.lang_codes.get(source_lang, "eng_Latn")`
on the non-raising path (when the lookup raises, `translate` returns before
any use of the code, so the catch-all value here is never consulted). -/
def resolveSrc (k : JValue) : String :=
  match langGet k "eng_Latn" with
  | .ok c => c
  | .error _ => "eng_Latn"

/-- The value of `tgt_code = self.lang_codes.get(target_lang, "spa_Latn")`
on the non-raising path. -/
def resolveTgt (k : JValue) : String :=
  match langGet k "spa_Latn" with
  | .ok c => c
  | .error _ => "spa_Latn"

/-- The progress line `{"status": "loading", "message": "Loading NLLB model..."}`
printed by `load_model`. -/
def loadingMsg : Resp :=
  [("status", .str "loading"), ("message", .str "Loading NLLB model...")]

/-- Response helper: `{"error": ..., "status": ...}` in source key order. -/
def errResp (err status : String) : Resp :=
  [("error", .str err), ("status", .str status)]

/-- Python `str.strip()`: drop leading and trailing whitespace. -/
def pyStrip (s : String) : String :=
  ⟨((s.data.dropWhile Char.isWhitespace).reverse.dropWhile Char.isWhitespace).reverse⟩

/-- Python `str.lower()` (ASCII range, as used for the quit test). -/
def pyLower (s : String) : String := ⟨s.data.map Char.toLower⟩

section Ops

variable {Tok Mdl Tensors Output : Type}

/-- `NLLBTranslator.load_model`.  Returns the updated state, the result dict
and the trace of observable events.  Note that `self.tokenizer` is assigned
before the model load, so a model-load failure leaves the tokenizer assigned
but `loaded` false, exactly as in the source. -/
def load_model (env : Env Tok Mdl Tensors Output) (t : NLLBTranslator Tok Mdl) :
    NLLBTranslator Tok Mdl × Resp × List Event :=
  if ¬ env.pathExists t.model_path then
    (t, errResp ("Model not found at " ++ t.model_path) "model_not_found", [])
  else
    match env.fromPretrainedTokenizer t.model_path with
    | .error e =>
        (t, errResp ("Failed to load model: " ++ e) "load_error",
         [.printJson loadingMsg, .loadTokenizerCall t.model_path])
    | .ok tok =>
        match env.fromPretrainedModel t.model_path (pickDtype t.device)
            (pickDeviceMap t.device) with
        | .error e =>
            ({ t with tokenizer := some tok },
             errResp ("Failed to load model: " ++ e) "load_error",
             [.printJson loadingMsg, .loadTokenizerCall t.model_path,
              .loadModelCall t.model_path (pickDtype t.device) (pickDeviceMap t.device)])
        | .ok m =>
            if t.device = "cpu" then
              match env.modelTo m "cpu" with
              | .error e =>
                  ({ t with tokenizer := some tok, model := some m },
                   errResp ("Failed to load model: " ++ e) "load_error",
                   [.printJson loadingMsg, .loadTokenizerCall t.model_path,
                    .loadModelCall t.model_path (pickDtype t.device) (pickDeviceMap t.device),
                    .modelToCall "cpu"])
              | .ok m2 =>
                  ({ t with tokenizer := some tok, model := some m2, loaded := true },
                   [("status", .str "loaded"),
                    ("message", .str "NLLB model loaded successfully")],
                   [.printJson loadingMsg, .loadTokenizerCall t.model_path,
                    .loadModelCall t.model_path (pickDtype t.device) (pickDeviceMap t.device),
                    .modelToCall "cpu"])
            else
              ({ t with tokenizer := some tok, model := some m, loaded := true },
               [("status", .str "loaded"),
                ("message", .str "NLLB model loaded successfully")],
               [.printJson loadingMsg, .loadTokenizerCall t.model_path,
                .loadModelCall t.model_path (pickDtype t.device) (pickDeviceMap t.device)])

/-- `inputs = {k: v.to(self.device) for k, v in inputs.items()}` when the
device is not "cpu", the identity otherwise. -/
def moveInputs (env : Env Tok Mdl Tensors Output) (device : String)
    (inputs : Tensors) : Except String Tensors :=
  if device ≠ "cpu" then env.toDevice inputs device else .ok inputs

/-- The trace of the device move (present only when the device is not "cpu"). -/
def deviceEvents (device : String) : List Event :=
  if device ≠ "cpu" then [.toDeviceCall device] else []

/-- The `try` block of `NLLBTranslator.translate` (after the implicit load).
Lines 88–89 run the two `lang_codes.get` lookups before anything else, so an
unhashable language code raises there, caught as a `translation_error`.
`src_code` (line 88) is computed by the source but never used afterwards; on
the non-raising branch the looked-up target code is `resolveTgt target_lang`,
which steers `lang_code_to_id`.  Each external call that Python would make on
a `None` attribute or that raises maps to the corresponding
`translation_error` response. -/
def translateBody (env : Env Tok Mdl Tensors Output) (t : NLLBTranslator Tok Mdl)
    (text source_lang target_lang : JValue) :
    NLLBTranslator Tok Mdl × Resp × List Event :=
  match langGet source_lang "eng_Latn" with
  | .error e =>
      (t, errResp ("Translation failed: " ++ e) "translation_error", [])
  | .ok _ =>
  match langGet target_lang "spa_Latn" with
  | .error e =>
      (t, errResp ("Translation failed: " ++ e) "translation_error", [])
  | .ok _ =>
  match t.tokenizer with
  | none =>
      (t, errResp "Translation failed: 'NoneType' object is not callable"
            "translation_error", [])
  | some tok =>
      match env.tokenize tok text true true 512 with
      | .error e =>
          (t, errResp ("Translation failed: " ++ e) "translation_error",
           [.tokenizeCall text true true 512])
      | .ok inputs0 =>
          match moveInputs env t.device inputs0 with
          | .error e =>
              (t, errResp ("Translation failed: " ++ e) "translation_error",
               .tokenizeCall text true true 512 :: deviceEvents t.device)
          | .ok inputs =>
              match env.lang_code_to_id tok (resolveTgt target_lang) with
              | none =>
                  -- KeyError: str(e) is the quoted missing key
                  (t, errResp ("Translation failed: '" ++ resolveTgt target_lang ++ "'")
                        "translation_error",
                   .tokenizeCall text true true 512 :: deviceEvents t.device
                     ++ [.langCodeToIdCall (resolveTgt target_lang) none])
              | some fid =>
                  match t.model with
                  | none =>
                      (t, errResp
                            "Translation failed: 'NoneType' object has no attribute 'generate'"
                            "translation_error",
                       .tokenizeCall text true true 512 :: deviceEvents t.device
                         ++ [.langCodeToIdCall (resolveTgt target_lang) (some fid)])
                  | some m =>
                      match env.generate m inputs fid 512 4 true false with
                      | .error e =>
                          (t, errResp ("Translation failed: " ++ e) "translation_error",
                           .tokenizeCall text true true 512 :: deviceEvents t.device
                             ++ [.langCodeToIdCall (resolveTgt target_lang) (some fid),
                                 .generateCall fid 512 4 true false])
                      | .ok out =>
                          match env.decode tok out true with
                          | .error e =>
                              (t, errResp ("Translation failed: " ++ e)
                                    "translation_error",
                               .tokenizeCall text true true 512 :: deviceEvents t.device
                                 ++ [.langCodeToIdCall (resolveTgt target_lang) (some fid),
                                     .generateCall fid 512 4 true false, .decodeCall true])
                          | .ok translation =>
                              (t, [("status", .str "success"),
                                   ("translation", .str translation),
                                   ("source_lang", source_lang),
                                   ("target_lang", target_lang),
                                   ("model", .str "nllb-200")],
                               .tokenizeCall text true true 512 :: deviceEvents t.device
                                 ++ [.langCodeToIdCall (resolveTgt target_lang) (some fid),
                                     .generateCall fid 512 4 true false, .decodeCall true])

/-- `NLLBTranslator.translate`. -/
def NLLBTranslator.translate (env : Env Tok Mdl Tensors Output) (t : NLLBTranslator Tok Mdl)
    (text source_lang target_lang : JValue) :
    NLLBTranslator Tok Mdl × Resp × List Event :=
  if t.loaded then
    translateBody env t text source_lang target_lang
  else
    let r := load_model env t
    if hasKey r.2.1 "error" then r
    else
      let b := translateBody env r.1 text source_lang target_lang
      (b.1, b.2.1, r.2.2 ++ b.2.2)

/-- What `json.loads(sys.stdin.read())` produced in the non-interactive mode:
the input was not valid JSON (`json.JSONDecodeError`), it parsed to a
non-dict value (on which `.get` raises an `AttributeError` whose `str` is
`desc`), or it parsed to a dict. -/
inductive Stdin where
  | invalidJson
  | nonDict (desc : String)
  | dict (fields : List (String × JValue))

/-- `input_data.get("action") == s` for a parsed dict. -/
def actionIs (fields : List (String × JValue)) (s : String) : Bool :=
  match getField fields "action" with
  | some v => v.isStr s
  | none => false

/-- The non-interactive (JSON stdin/stdout) branch of `main`, after argument
parsing and construction of the translator.  Returns the final translator
state and the trace of events; the final `print(json.dumps(result))` appears
as the last `printJson` event. -/
def mainNonInteractive (env : Env Tok Mdl Tensors Output)
    (t : NLLBTranslator Tok Mdl) (stdin : Stdin) :
    NLLBTranslator Tok Mdl × List Event :=
  match stdin with
  | .invalidJson =>
      (t, [.printJson (errResp "Invalid JSON input" "json_error")])
  | .nonDict desc =>
      -- `.get("action")` raises; the generic `except Exception` catches it
      (t, [.printJson (errResp ("Unexpected error: " ++ desc) "error")])
  | .dict fields =>
      if actionIs fields "load" then
        let r := load_model env t
        (r.1, r.2.2 ++ [.printJson r.2.1])
      else if actionIs fields "translate" then
        match getField fields "text" with
        | none =>
            -- `input_data["text"]` raises `KeyError("text")`; `str(e)` is "'text'"
            (t, [.printJson (errResp "Unexpected error: 'text'" "error")])
        | some text =>
            let src := (getField fields "source_lang").getD (.str "en")
            let tgt := (getField fields "target_lang").getD (.str "es")
            let r := t.translate env text src tgt
            (r.1, r.2.2 ++ [.printJson r.2.1])
      else
        (t, [.printJson (errResp "Unknown action" "error")])

/-- One iteration of the interactive loop.  `inputs` is the stream of lines
typed at the prompts, `i` the index of the next line to be read.  Returns
`none` when the iteration executed `break` (quit), otherwise the updated
translator and the printed result; the second component is the index of the
next unread line, the third the events of the iteration. -/
def interactiveStep (env : Env Tok Mdl Tensors Output)
    (t : NLLBTranslator Tok Mdl) (inputs : Nat → String) (i : Nat) :
    Option (NLLBTranslator Tok Mdl × Resp) × Nat × List Event :=
  let text := pyStrip (inputs i)
  if pyLower text == "quit" then
    (none, i + 1, [])
  else
    let s := pyStrip (inputs (i + 1))
    let source := if s == "" then "en" else s
    let s2 := pyStrip (inputs (i + 2))
    let target := if s2 == "" then "es" else s2
    let r := t.translate env (.str text) (.str source) (.str target)
    (some (r.1, r.2.1), i + 3, r.2.2 ++ [.printJson r.2.1])

end Ops

/-! ## Concrete environments and states for witnesses and counterexamples -/

/-- An environment over trivial carriers in which every external call
succeeds; decoding yields the fixed string "Hola". -/
def envOk : Env Unit Unit Unit Unit where
  pathExists _ := true
  fromPretrainedTokenizer _ := .ok ()
  fromPretrainedModel _ _ _ := .ok ()
  modelTo _ _ := .ok ()
  tokenize _ _ _ _ _ := .ok ()
  lang_code_to_id _ _ := some 7
  toDevice _ _ := .ok ()
  generate _ _ _ _ _ _ _ := .ok ()
  decode _ _ _ := .ok "Hola"

/-- Like `envOk`, but decoding yields the empty string. -/
def envEmptyDecode : Env Unit Unit Unit Unit where
  pathExists _ := true
  fromPretrainedTokenizer _ := .ok ()
  fromPretrainedModel _ _ _ := .ok ()
  modelTo _ _ := .ok ()
  tokenize _ _ _ _ _ := .ok ()
  lang_code_to_id _ _ := some 7
  toDevice _ _ := .ok ()
  generate _ _ _ _ _ _ _ := .ok ()
  decode _ _ _ := .ok ""

/-- An environment in which the model path does not exist. -/
def envNoPath : Env Unit Unit Unit Unit where
  pathExists _ := false
  fromPretrainedTokenizer _ := .ok ()
  fromPretrainedModel _ _ _ := .ok ()
  modelTo _ _ := .ok ()
  tokenize _ _ _ _ _ := .ok ()
  lang_code_to_id _ _ := some 7
  toDevice _ _ := .ok ()
  generate _ _ _ _ _ _ _ := .ok ()
  decode _ _ _ := .ok "Hola"

/-- A freshly constructed translator on trivial carriers. -/
def tFresh : NLLBTranslator Unit Unit := mkTranslator Unit Unit "/models/nllb" "cpu"

/-- A translator in the state reached after a successful load. -/
def tLoaded : NLLBTranslator Unit Unit :=
  { model_path := "/models/nllb", device := "cpu", model := some (),
    tokenizer := some (), loaded := true }

/-- The 12 short codes supported by the table. -/
def supportedCodes : List String :=
  ["en", "es", "fr", "de", "it", "pt", "ru", "ja", "ko", "zh", "ar", "hi"]

/-! ## Helper lemmas -/

theorem lookupLang_mem {s tag : String} (h : lookupLang s = some tag) :
    s ∈ supportedCodes := by
  unfold lookupLang at h
  obtain ⟨p, hf, -⟩ := Option.map_eq_some'.mp h
  have hp := List.find?_some hf
  have hm := List.mem_of_find?_eq_some hf
  simp [lang_codes] at hm
  simp only [supportedCodes]
  rcases hm with rfl | rfl | rfl | rfl | rfl | rfl | rfl | rfl | rfl | rfl | rfl | rfl <;>
    simp_all [beq_iff_eq]

theorem lookupLang_eq_none {s : String} (h : s ∉ supportedCodes) :
    lookupLang s = none := by
  cases hl : lookupLang s with
  | none => rfl
  | some tag => exact absurd (lookupLang_mem hl) h

/-- Claim C2: the language-code table has exactly 12 entries, each supported
short code maps to its documented locale tag, and translate resolves any
unsupported code to "eng_Latn" as source and "spa_Latn" as target. -/
theorem C2_theorem :
    lang_codes.length = 12
    ∧ (lookupLang "en" = some "eng_Latn" ∧ lookupLang "es" = some "spa_Latn"
       ∧ lookupLang "fr" = some "fra_Latn" ∧ lookupLang "de" = some "deu_Latn"
       ∧ lookupLang "it" = some "ita_Latn" ∧ lookupLang "pt" = some "por_Latn"
       ∧ lookupLang "ru" = some "rus_Cyrl" ∧ lookupLang "ja" = some "jpn_Jpan"
       ∧ lookupLang "ko" = some "kor_Hang" ∧ lookupLang "zh" = some "zho_Hans"
       ∧ lookupLang "ar" = some "arb_Arab" ∧ lookupLang "hi" = some "hin_Deva")
    ∧ ∀ s : String, s ∉ supportedCodes →
        resolveSrc (.str s) = "eng_Latn" ∧ resolveTgt (.str s) = "spa_Latn" := by
  refine ⟨rfl, ⟨rfl, rfl, rfl, rfl, rfl, rfl, rfl, rfl, rfl, rfl, rfl, rfl⟩, ?_⟩
  intro s hs
  have h := lookupLang_eq_none hs
  constructor <;> simp [resolveSrc, resolveTgt, langGet, h]

/-- Witness for C2 at the unsupported code "xx". -/
theorem C2_witness :
    resolveSrc (.str "xx") = "eng_Latn" ∧ resolveTgt (.str "xx") = "spa_Latn" :=
  C2_theorem.2.2 "xx" (by decide)

/-- Events that belong to a model load (calls made only by `load_model`). -/
def isLoadEvent : Event → Bool
  | .loadTokenizerCall _ => true
  | .loadModelCall _ _ _ => true
  | .modelToCall _ => true
  | _ => false

section Claims

variable {Tok Mdl Tensors Output : Type}

theorem load_model_loaded_mono (env : Env Tok Mdl Tensors Output)
    (t : NLLBTranslator Tok Mdl) (ht : t.loaded = true) :
    (load_model env t).1.loaded = true := by
  unfold load_model
  repeat' split
  all_goals simp_all

theorem translateBody_fst (env : Env Tok Mdl Tensors Output)
    (t : NLLBTranslator Tok Mdl) (text src tgt : JValue) :
    (translateBody env t text src tgt).1 = t := by
  unfold translateBody
  repeat' split
  all_goals rfl

theorem translate_skips_load (env : Env Tok Mdl Tensors Output)
    (t : NLLBTranslator Tok Mdl) (text src tgt : JValue) (ht : t.loaded = true) :
    t.translate env text src tgt = translateBody env t text src tgt := by
  unfold NLLBTranslator.translate
  rw [ht]
  simp

theorem deviceEvents_no_load (d : String) :
    (deviceEvents d).all (fun e => !isLoadEvent e) = true := by
  unfold deviceEvents
  split <;> rfl

theorem translateBody_no_load (env : Env Tok Mdl Tensors Output)
    (t : NLLBTranslator Tok Mdl) (text src tgt : JValue) :
    ((translateBody env t text src tgt).2.2.all (fun e => !isLoadEvent e)) = true := by
  unfold translateBody deviceEvents
  by_cases hd : t.device = "cpu" <;>
    simp only [hd, ne_eq, not_true_eq_false, not_false_eq_true, if_true, if_false,
      ite_true, ite_false] <;>
    repeat' split
  all_goals simp [isLoadEvent]

theorem translate_loaded_mono (env : Env Tok Mdl Tensors Output)
    (t : NLLBTranslator Tok Mdl) (text src tgt : JValue) (ht : t.loaded = true) :
    (t.translate env text src tgt).1.loaded = true := by
  rw [translate_skips_load env t text src tgt ht, translateBody_fst]
  exact ht

/-- Claim C8: within a process the loaded flag only ever goes from false to
true: starting from a loaded translator, `load_model`, `translate`, the
non-interactive request handler and the interactive iteration all leave it
true (there is no unload operation), and a translate call on a loaded
translator is exactly the translate body — it performs no load call at all,
as its trace also shows. -/
theorem C8_theorem (env : Env Tok Mdl Tensors Output) (t : NLLBTranslator Tok Mdl)
    (text src tgt : JValue) (stdin : Stdin) (inputs : Nat → String) (i : Nat)
    (ht : t.loaded = true) :
    (load_model env t).1.loaded = true
    ∧ (t.translate env text src tgt).1.loaded = true
    ∧ t.translate env text src tgt = translateBody env t text src tgt
    ∧ ((t.translate env text src tgt).2.2.all (fun e => !isLoadEvent e)) = true
    ∧ (mainNonInteractive env t stdin).1.loaded = true
    ∧ ((interactiveStep env t inputs i).1.all (fun p => p.1.loaded)) = true := by
  refine ⟨load_model_loaded_mono env t ht, translate_loaded_mono env t text src tgt ht,
    translate_skips_load env t text src tgt ht, ?_, ?_, ?_⟩
  · rw [translate_skips_load env t text src tgt ht]
    exact translateBody_no_load env t text src tgt
  · cases stdin with
    | invalidJson => exact ht
    | nonDict d => exact ht
    | dict fields =>
        simp only [mainNonInteractive]
        split
        · exact load_model_loaded_mono env t ht
        · split
          · split
            · exact ht
            · exact translate_loaded_mono env t _ _ _ ht
          · exact ht
  · simp only [interactiveStep]
    split
    · rfl
    · exact translate_loaded_mono env t _ _ _ ht

/-- Witness for C8: the loaded translator `tLoaded` under `envOk`. -/
theorem C8_witness :
    (load_model envOk tLoaded).1.loaded = true
    ∧ (tLoaded.translate envOk (.str "Hello") (.str "en") (.str "es")).1.loaded = true
    ∧ tLoaded.translate envOk (.str "Hello") (.str "en") (.str "es")
        = translateBody envOk tLoaded (.str "Hello") (.str "en") (.str "es")
    ∧ ((tLoaded.translate envOk (.str "Hello") (.str "en") (.str "es")).2.2.all
        (fun e => !isLoadEvent e)) = true
    ∧ (mainNonInteractive envOk tLoaded (.dict [])).1.loaded = true
    ∧ ((interactiveStep envOk tLoaded (fun _ => "quit") 0).1.all
        (fun p => p.1.loaded)) = true :=
  C8_theorem envOk tLoaded (.str "Hello") (.str "en") (.str "es") (.dict [])
    (fun _ => "quit") 0 rfl

/-- Claim C4: with a model path that does not exist, `load_model` returns
status "model_not_found" with an error message naming the path, leaves the
state unchanged, and the loaded flag remains false. -/
theorem C4_theorem (env : Env Tok Mdl Tensors Output) (t : NLLBTranslator Tok Mdl)
    (hpath : env.pathExists t.model_path = false) (hl : t.loaded = false) :
    (load_model env t).1 = t
    ∧ getField (load_model env t).2.1 "status" = some (.str "model_not_found")
    ∧ getField (load_model env t).2.1 "error"
        = some (.str ("Model not found at " ++ t.model_path))
    ∧ (load_model env t).1.loaded = false := by
  unfold load_model
  rw [hpath]
  simp [errResp, getField, hl]

/-- Witness for C4: a fresh translator against a filesystem without the path. -/
theorem C4_witness :
    (load_model envNoPath tFresh).1 = tFresh
    ∧ getField (load_model envNoPath tFresh).2.1 "status"
        = some (.str "model_not_found")
    ∧ getField (load_model envNoPath tFresh).2.1 "error"
        = some (.str ("Model not found at " ++ tFresh.model_path))
    ∧ (load_model envNoPath tFresh).1.loaded = false :=
  C4_theorem envNoPath tFresh rfl rfl

/-- Claim C3: when `translate` is called on an unloaded translator and the
implicit load fails (its result carries an "error" field), `translate`
returns the load failure result verbatim — state, response and trace are
exactly those of `load_model`. -/
theorem C3_theorem (env : Env Tok Mdl Tensors Output) (t : NLLBTranslator Tok Mdl)
    (text src tgt : JValue) (hl : t.loaded = false)
    (herr : hasKey (load_model env t).2.1 "error" = true) :
    t.translate env text src tgt = load_model env t := by
  unfold NLLBTranslator.translate
  rw [hl]
  simp [herr]

/-- Witness for C3: a fresh translator whose path does not exist. -/
theorem C3_witness :
    tFresh.translate envNoPath (.str "Hello") (.str "en") (.str "es")
      = load_model envNoPath tFresh :=
  C3_theorem envNoPath tFresh (.str "Hello") (.str "en") (.str "es") rfl rfl

/-- Claim C6: on input that is not valid JSON, the non-interactive mode
writes exactly the json_error response and returns normally with the
translator untouched. -/
theorem C6_theorem (env : Env Tok Mdl Tensors Output) (t : NLLBTranslator Tok Mdl) :
    mainNonInteractive env t .invalidJson
      = (t, [.printJson [("error", .str "Invalid JSON input"),
                         ("status", .str "json_error")]]) := rfl

/-- Claim C7: a parsed JSON dict whose action is neither "load" nor
"translate" (including a dict with no action key) yields exactly the
Unknown action response. -/
theorem C7_theorem (env : Env Tok Mdl Tensors Output) (t : NLLBTranslator Tok Mdl)
    (fields : List (String × JValue))
    (h1 : actionIs fields "load" = false) (h2 : actionIs fields "translate" = false) :
    mainNonInteractive env t (.dict fields)
      = (t, [.printJson [("error", .str "Unknown action"),
                         ("status", .str "error")]]) := by
  simp [mainNonInteractive, h1, h2, errResp]

/-- Witness for C7: the empty request dict, which has no action field. -/
theorem C7_witness :
    mainNonInteractive envOk tFresh (.dict [])
      = (tFresh, [.printJson [("error", .str "Unknown action"),
                              ("status", .str "error")]]) :=
  C7_theorem envOk tFresh [] rfl rfl

theorem actionIs_other {fields : List (String × JValue)} {a b : String}
    (h : actionIs fields a = true) (hne : b ≠ a) : actionIs fields b = false := by
  unfold actionIs at h ⊢
  cases hf : getField fields "action" with
  | none => rfl
  | some v =>
      rw [hf] at h
      cases v <;> simp_all [JValue.isStr, beq_iff_eq]
      exact fun he => hne he.symm

/-- Claim C10: a translate request without a "text" key makes the missing-key
access raise, the generic handler catches it, and the response is exactly
status "error" with message "Unexpected error: 'text'" (in particular the
message begins with "Unexpected error:" and the status is neither
translation_error nor json_error). -/
theorem C10_theorem (env : Env Tok Mdl Tensors Output) (t : NLLBTranslator Tok Mdl)
    (fields : List (String × JValue))
    (h1 : actionIs fields "translate" = true) (h2 : getField fields "text" = none) :
    mainNonInteractive env t (.dict fields)
      = (t, [.printJson [("error", .str "Unexpected error: 'text'"),
                         ("status", .str "error")]]) := by
  have hload : actionIs fields "load" = false := actionIs_other h1 (by decide)
  simp [mainNonInteractive, hload, h1, h2, errResp]

/-- Witness for C10: the request `{"action": "translate"}`. -/
theorem C10_witness :
    mainNonInteractive envOk tFresh (.dict [("action", .str "translate")])
      = (tFresh, [.printJson [("error", .str "Unexpected error: 'text'"),
                              ("status", .str "error")]]) :=
  C10_theorem envOk tFresh [("action", .str "translate")] rfl rfl

theorem getField_errResp_status (e s : String) :
    getField (errResp e s) "status" = some (.str s) := rfl

theorem getField_status_loaded :
    getField [("status", JValue.str "loaded"),
              ("message", JValue.str "NLLB model loaded successfully")] "status"
      = some (.str "loaded") := rfl

theorem load_model_status_ne_success (env : Env Tok Mdl Tensors Output)
    (t : NLLBTranslator Tok Mdl) :
    getField (load_model env t).2.1 "status" ≠ some (.str "success") := by
  unfold load_model
  repeat' split
  all_goals intro hs
  all_goals dsimp only at hs
  all_goals first
    | (rw [getField_errResp_status] at hs
       simp only [Option.some.injEq, JValue.str.injEq] at hs
       exact absurd hs (by decide))
    | (rw [getField_status_loaded] at hs
       simp only [Option.some.injEq, JValue.str.injEq] at hs
       exact absurd hs (by decide))

theorem translateBody_success_calls (env : Env Tok Mdl Tensors Output)
    (t : NLLBTranslator Tok Mdl) (text src tgt : JValue)
    (hs : getField (translateBody env t text src tgt).2.1 "status"
            = some (.str "success")) :
    Event.tokenizeCall text true true 512 ∈ (translateBody env t text src tgt).2.2
    ∧ ∃ fid, Event.langCodeToIdCall (resolveTgt tgt) (some fid)
          ∈ (translateBody env t text src tgt).2.2
        ∧ Event.generateCall fid 512 4 true false
          ∈ (translateBody env t text src tgt).2.2 := by
  revert hs
  unfold translateBody
  repeat' split
  all_goals intro hs
  all_goals dsimp only at hs
  all_goals try (rw [getField_errResp_status] at hs
                 simp only [Option.some.injEq, JValue.str.injEq] at hs
                 exact absurd hs (by decide))
  exact ⟨List.mem_cons_self _ _, _,
    List.mem_cons_of_mem _ (List.mem_append_right _ (List.Mem.head _)),
    List.mem_cons_of_mem _ (List.mem_append_right _ (List.Mem.tail _ (List.Mem.head _)))⟩

/-- Claim C5: whenever a translate call returns status "success", the input
text was tokenized with padding, truncation and maximum length 512, the
target token id was looked up for the resolved target-language code, and
generation ran with that forced first token, maximum length 512, 4 beams,
early stopping on and sampling off. -/
theorem C5_theorem (env : Env Tok Mdl Tensors Output) (t : NLLBTranslator Tok Mdl)
    (text src tgt : JValue)
    (hs : getField (t.translate env text src tgt).2.1 "status"
            = some (.str "success")) :
    Event.tokenizeCall text true true 512 ∈ (t.translate env text src tgt).2.2
    ∧ ∃ fid, Event.langCodeToIdCall (resolveTgt tgt) (some fid)
          ∈ (t.translate env text src tgt).2.2
        ∧ Event.generateCall fid 512 4 true false
          ∈ (t.translate env text src tgt).2.2 := by
  by_cases hl : t.loaded = true
  · rw [translate_skips_load env t text src tgt hl] at hs ⊢
    exact translateBody_success_calls env t text src tgt hs
  · have hl' : t.loaded = false := by simpa using hl
    unfold NLLBTranslator.translate at hs ⊢
    rw [hl'] at hs ⊢
    simp only [Bool.false_eq_true, if_false] at hs ⊢
    revert hs
    split
    · intro hs
      exact absurd hs (load_model_status_ne_success env t)
    · intro hs
      obtain ⟨h1, fid, h2, h3⟩ := translateBody_success_calls env _ text src tgt hs
      exact ⟨List.mem_append_right _ h1, fid, List.mem_append_right _ h2,
        List.mem_append_right _ h3⟩

/-- Witness for C5: a successful call on `tLoaded` under `envOk`. -/
theorem C5_witness :
    Event.tokenizeCall (.str "Hello") true true 512
      ∈ (tLoaded.translate envOk (.str "Hello") (.str "en") (.str "es")).2.2
    ∧ Event.langCodeToIdCall (resolveTgt (.str "es")) (some 7)
      ∈ (tLoaded.translate envOk (.str "Hello") (.str "en") (.str "es")).2.2
    ∧ Event.generateCall 7 512 4 true false
      ∈ (tLoaded.translate envOk (.str "Hello") (.str "en") (.str "es")).2.2 := by
  have h := C5_theorem envOk tLoaded (.str "Hello") (.str "en") (.str "es") rfl
  refine ⟨h.1, ?_, ?_⟩
  · exact List.Mem.tail _ (List.Mem.head _)
  · exact List.Mem.tail _ (List.Mem.tail _ (List.Mem.head _))

/-- Claim C1, counterexample to "the translation field is a non-empty
string": under an environment in which tokenization, generation and decoding
all succeed but the decoder returns the empty string, the translate call on a
loaded translator returns status "success" with an empty translation. -/
theorem C1_counterexample :
    getField (tLoaded.translate envEmptyDecode (.str "Hello") (.str "en")
        (.str "es")).2.1 "status" = some (.str "success")
    ∧ getField (tLoaded.translate envEmptyDecode (.str "Hello") (.str "en")
        (.str "es")).2.1 "translation" = some (.str "") :=
  ⟨rfl, rfl⟩

/-- Claim C1 (amended): a translate call on a loaded translator in which the
language-code lookups (which in the source run before tokenization and raise
on unhashable codes), tokenization, the device move, the target-token lookup,
generation and decoding succeed returns status "success", a translation field
equal to the decoded string (possibly empty), source_lang and target_lang
echoed verbatim from the request, and model "nllb-200". -/
theorem C1_theorem (env : Env Tok Mdl Tensors Output) (t : NLLBTranslator Tok Mdl)
    (tok : Tok) (m : Mdl) (text src tgt : JValue) (sc tc : String)
    (toks0 toks : Tensors) (out : Output) (fid : Nat) (dec : String)
    (hl : t.loaded = true) (htok : t.tokenizer = some tok) (hm : t.model = some m)
    (hsrc : langGet src "eng_Latn" = .ok sc)
    (htgt : langGet tgt "spa_Latn" = .ok tc)
    (h1 : env.tokenize tok text true true 512 = .ok toks0)
    (h2 : moveInputs env t.device toks0 = .ok toks)
    (h3 : env.lang_code_to_id tok tc = some fid)
    (h4 : env.generate m toks fid 512 4 true false = .ok out)
    (h5 : env.decode tok out true = .ok dec) :
    getField (t.translate env text src tgt).2.1 "status" = some (.str "success")
    ∧ getField (t.translate env text src tgt).2.1 "translation" = some (.str dec)
    ∧ getField (t.translate env text src tgt).2.1 "source_lang" = some src
    ∧ getField (t.translate env text src tgt).2.1 "target_lang" = some tgt
    ∧ getField (t.translate env text src tgt).2.1 "model"
        = some (.str "nllb-200") := by
  rw [translate_skips_load env t text src tgt hl]
  unfold translateBody
  have hrt : resolveTgt tgt = tc := by simp [resolveTgt, htgt]
  simp only [hsrc, htgt, htok, hrt, hm, h1, h2, h3, h4, h5]
  exact ⟨rfl, rfl, rfl, rfl, rfl⟩

/-- Witness for C1: a successful call on `tLoaded` under `envOk`, with an
unknown target code echoed verbatim. -/
theorem C1_witness :
    getField (tLoaded.translate envOk (.str "Hello") (.str "en")
        (.str "xx")).2.1 "status" = some (.str "success")
    ∧ getField (tLoaded.translate envOk (.str "Hello") (.str "en")
        (.str "xx")).2.1 "translation" = some (.str "Hola")
    ∧ getField (tLoaded.translate envOk (.str "Hello") (.str "en")
        (.str "xx")).2.1 "source_lang" = some (.str "en")
    ∧ getField (tLoaded.translate envOk (.str "Hello") (.str "en")
        (.str "xx")).2.1 "target_lang" = some (.str "xx")
    ∧ getField (tLoaded.translate envOk (.str "Hello") (.str "en")
        (.str "xx")).2.1 "model" = some (.str "nllb-200") :=
  C1_theorem envOk tLoaded () () (.str "Hello") (.str "en") (.str "xx")
    "eng_Latn" "spa_Latn" () () () 7 "Hola" rfl rfl rfl rfl rfl rfl rfl rfl rfl rfl

/-- Claim C9: a line whose stripped, lowercased form is "quit" makes the
interactive iteration break out of the loop: no response is emitted, no
external call is made, and only that one line is consumed, so the source and
target prompts are never reached. -/
theorem C9_theorem (env : Env Tok Mdl Tensors Output) (t : NLLBTranslator Tok Mdl)
    (inputs : Nat → String) (i : Nat)
    (hq : pyLower (pyStrip (inputs i)) = "quit") :
    interactiveStep env t inputs i = (none, i + 1, []) := by
  simp [interactiveStep, hq]

/-- Witness for C9: typing "quit" at the text prompt. -/
theorem C9_witness :
    interactiveStep envOk tFresh (fun _ => "quit") 0 = (none, 1, []) :=
  C9_theorem envOk tFresh (fun _ => "quit") 0 (by decide)

end Claims
